import Mathlib

/-!
SideRun: a shallow embedding of the flying-border engine.

The embedding follows `src/js/siderun.js` (the copy under `src/dist` differs only in the
tail of `recalc` and in touch handling).

Modelling conventions

* JavaScript numbers are exact rationals (`ℚ`): IEEE rounding, `NaN` and the infinities are
  not represented.  Where the source tests a number for truthiness (`x || d`, `if (x)`,
  `!x`) the model tests it against `0`; a failed `parseFloat` (the only source of `NaN` the
  engine guards against) is `none`.
* `Math.PI` is the rational number that the double constant denotes.
* DOM elements, closures and animation-frame handles are identified by natural numbers.
* The attributes written to the SVG nodes are kept as numbers rather than strings.
-/

namespace SideRun

/-! ## Helpers (lines 11-22) -/

/-- The helper `const clamp = (v, min, max) => Math.min(Math.max(v, min), max)`. -/
def clamp (v lo hi : ℚ) : ℚ := min (max v lo) hi

/-- The helper `const mix = (a, b, t) => a * (1 - t) + b * t`. -/
def mix (a b t : ℚ) : ℚ := a * (1 - t) + b * t

/-- The constant `Math.PI`: the double `0x400921FB54442D18`, exactly `884279719003555 / 2^48`. -/
def Math.PI : ℚ := 884279719003555 / 281474976710656

/-- The function `calcAppleRadius(w, h)` with `ratio = 0.2237`. -/
def calcAppleRadius (w h : ℚ) : ℚ :=
  let m := min w h
  let ratio : ℚ := 2237 / 10000
  min (m * ratio) (m / 2)

/-- JavaScript `x || d` for the result `x` of `parseFloat`: `NaN` (`none`) and `0` are falsy. -/
def orDefault (x : Option ℚ) (d : ℚ) : ℚ :=
  match x with
  | none => d
  | some v => if v = 0 then d else v

/-! ## Data model (lines 63-78 and 111-121) -/

/-- The `options` argument of `init`: a key that is absent is `none`. -/
structure Options where
  tail : Option ℚ := none
  gap : Option ℚ := none
  ease : Option ℚ := none
  margin : Option ℚ := none
  maxFps : Option ℚ := none
  trackPointer : Option Bool := none
  useAppleRadius : Option Bool := none
  maxRadius : Option (Option ℚ) := none
  pauseOffscreen : Option Bool := none
  deriving DecidableEq

/-- What the style and layout system answers for the host element: the bounding box and
the result of `parseFloat` on each property the engine reads. -/
structure HostEnv where
  width : ℚ
  height : ℚ
  srTail : Option ℚ := none
  srGap : Option ℚ := none
  srEase : Option ℚ := none
  srMargin : Option ℚ := none
  srMaxFps : Option ℚ := none
  srStrokeWidth : Option ℚ := none
  borderRadius : Option ℚ := none
  hasIntersectionObserver : Bool := true
  reducedMotion : Bool := false
  deriving DecidableEq

/-- The object `cfg`. -/
structure Config where
  tail : ℚ
  gap : ℚ
  ease : ℚ
  margin : ℚ
  maxFps : ℚ
  trackPointer : Bool
  useAppleRadius : Bool
  maxRadius : Option ℚ
  pauseOffscreen : Bool
  deriving DecidableEq

/-- The helper `cssVal(name, def)`: `parseFloat(cs.getPropertyValue(name)) || def`. -/
def cssVal (parsed : Option ℚ) (d : ℚ) : ℚ := orDefault parsed d

/-- The literal `cfg = { tail: cssVal('--sr-tail', 10), ..., ...options }` (lines 67-78). -/
def mkConfig (env : HostEnv) (o : Options) : Config :=
  { tail := o.tail.getD (cssVal env.srTail 10)
    gap := o.gap.getD (cssVal env.srGap 10)
    ease := o.ease.getD (cssVal env.srEase (1 / 10))
    margin := o.margin.getD (cssVal env.srMargin 11)
    maxFps := o.maxFps.getD (cssVal env.srMaxFps 60)
    trackPointer := o.trackPointer.getD false
    useAppleRadius := o.useAppleRadius.getD false
    maxRadius := o.maxRadius.getD none
    pauseOffscreen := o.pauseOffscreen.getD true }

/-- The object `metrics.bases`. -/
structure Bases where
  ps : ℚ := 0
  pe : ℚ := 0
  ss : ℚ := 0
  se : ℚ := 0
  wrap : ℚ := 0
  deriving DecidableEq

/-- The object `metrics`. -/
structure Metrics where
  perimeter : ℚ := 0
  segment : ℚ := 0
  head : ℚ := 0
  widthSpan : ℚ := 0
  bases : Bases := {}
  deriving DecidableEq

/-- The object `state`. -/
structure HoverState where
  hoverX : ℚ := 1 / 2
  hoverY : ℚ := 1 / 2
  isHover : Bool := false
  deriving DecidableEq

/-- The objects `primary` and `secondary`. -/
@[ext]
structure Cursor where
  target : ℚ := 0
  eased : ℚ := 0
  deriving DecidableEq

/-- The attributes `setGeometry` writes to each of the four `rect` layers. -/
structure Geometry where
  x : ℚ
  y : ℚ
  width : ℚ
  height : ℚ
  rx : ℚ
  deriving DecidableEq

/-- One `stroke-dasharray` (two numbers) with its `stroke-dashoffset`. -/
structure Dash where
  len : ℚ
  gap : ℚ
  offset : ℚ
  deriving DecidableEq

/-- The dash attributes of the four layers after `applyDashes`. -/
structure Dashes where
  runner2 : Dash
  runner1 : Dash
  borderTop : Dash
  borderBottom : Dash
  deriving DecidableEq

/-- The mutable variables one call of `init` closes over. -/
structure Instance where
  hostEl : Nat
  strokeHost : Nat
  cfg : Config
  metrics : Metrics := {}
  state : HoverState := {}
  primary : Cursor := {}
  secondary : Cursor := {}
  svgSize : Option (ℚ × ℚ) := none
  geometry : Option Geometry := none
  dashes : Option Dashes := none
  lastFrame : ℚ := 0
  unregister : Option Nat := none
  disposed : Bool := false
  isInViewport : Bool := true
  prefersReducedMotion : Bool := false
  ioObserving : Bool := false
  roObserving : Bool := false
  visListener : Bool := false
  injectedInDom : Bool := false
  deriving DecidableEq

/-! ## Geometry and animation (lines 123-259) -/

/-- The function `setGeometry(w, h, r)`: its own `stroke` is `cssVal('--sr-stroke-width', 3)`. -/
def setGeometry (env : HostEnv) (w h r : ℚ) : Geometry :=
  let stroke := cssVal env.srStrokeWidth 3
  let off := stroke / 2
  let iw := max 0 (w - stroke)
  let ih := max 0 (h - stroke)
  { x := off, y := off, width := iw, height := ih, rx := r }

/-- Lines 156-165 of `recalc`: the corner radius. -/
def recalcRadius (cfg : Config) (env : HostEnv) (w h iw ih : ℚ) : ℚ :=
  let r :=
    if cfg.useAppleRadius then calcAppleRadius w h
    else
      let cssRadius := orDefault env.borderRadius 12
      cssRadius + cfg.margin
  let r :=
    match cfg.maxRadius with
    | some mr => if mr = 0 then r else min r mr
    | none => r
  min r (min iw ih / 2)

/-- Lines 170-172 of `recalc`: the perimeter with its fallback.  The test `!isFinite(perim)`
has no counterpart, every rational being finite. -/
def recalcPerimeter (iw ih r : ℚ) : ℚ :=
  let perim := 2 * (iw + ih) - 8 * r + 2 * Math.PI * r
  if perim ≤ 0 then 2 * (iw + ih) else perim

/-- The function `applyDashes()`.  The memo `lastDash` only suppresses writes of an unchanged value, so the
attributes always hold the values computed last. -/
def applyDashes (s : Instance) : Instance :=
  if s.metrics.perimeter = 0 then s
  else
    let p := s.metrics.perimeter
    let seg := s.metrics.segment
    let mainGap := max 0 (p - seg)
    let tailLen := max 0 (-s.secondary.eased + s.primary.eased - s.cfg.gap * 2 - seg)
    let trailLen := max 0 (p + s.secondary.eased - s.primary.eased - s.cfg.gap * 2 - seg)
    { s with
      dashes := some
        { runner2 := ⟨seg, mainGap, s.primary.eased⟩
          runner1 := ⟨seg, mainGap, s.secondary.eased⟩
          borderTop := ⟨tailLen, p - tailLen, s.primary.eased - seg - s.cfg.gap⟩
          borderBottom := ⟨trailLen, p - trailLen, s.secondary.eased - seg - s.cfg.gap + p * 2⟩ } }

/-- The expanded box `w`, `h` and the inner box `iw`, `ih` of `recalc`. -/
structure Box where
  w : ℚ
  h : ℚ
  iw : ℚ
  ih : ℚ
  deriving DecidableEq

/-- Lines 141-154 of `recalc`. -/
def recalcBox (cfg : Config) (env : HostEnv) : Box :=
  let stroke := orDefault env.srStrokeWidth 3
  let m := cfg.margin
  let w := max 0 (env.width + m * 2)
  let h := max 0 (env.height + m * 2)
  { w := w, h := h, iw := w - stroke, ih := h - stroke }

/-- The function `recalc()` of `src/js/siderun.js`. -/
def recalc (env : HostEnv) (s : Instance) : Instance :=
  if s.disposed then s
  else
    let box := recalcBox s.cfg env
    let r := recalcRadius s.cfg env box.w box.h box.iw box.ih
    let arcQ := Math.PI * r * (1 / 2)
    let perim := recalcPerimeter box.iw box.ih r
    let segment := arcQ + s.cfg.tail * 2
    let head := arcQ + s.cfg.tail
    let widthSpan := max 0 (box.iw - r * 2)
    let b : Bases :=
      { ps := head
        pe := -widthSpan - arcQ + head
        ss := head - perim * (1 / 2)
        se := -perim * (1 / 2) - widthSpan - arcQ + head
        wrap := -perim * (1 / 2) - widthSpan - arcQ + head + perim }
    let s1 : Instance :=
      { s with
        svgSize := some (box.w, box.h)
        geometry := some (setGeometry env box.w box.h r)
        metrics :=
          { perimeter := perim, segment := segment, head := head, widthSpan := widthSpan,
            bases := b } }
    let s2 : Instance :=
      if s1.primary.target = 0 ∧ s1.secondary.target = 0 then
        { s1 with primary := ⟨b.ps, b.ps⟩, secondary := ⟨b.ss, b.ss⟩ }
      else if s1.state.isHover then
        { s1 with
          primary := { s1.primary with target := mix b.ps b.pe (clamp s1.state.hoverX 0 1) }
          secondary := { s1.secondary with target := mix b.se b.ss (clamp s1.state.hoverX 0 1) } }
      else
        { s1 with
          primary := { s1.primary with target := b.ps }
          secondary := { s1.secondary with target := b.ss } }
    applyDashes s2

/-- The function `updateTargets()`. -/
def updateTargets (s : Instance) : Instance :=
  if s.metrics.perimeter = 0 then s
  else
    let b := s.metrics.bases
    if s.state.isHover then
      let ratio := clamp s.state.hoverX 0 1
      { s with
        primary := { s.primary with target := mix b.ps b.pe ratio }
        secondary := { s.secondary with target := mix b.se b.ss ratio } }
    else
      { s with
        primary := { s.primary with target := b.ps }
        secondary := { s.secondary with target := b.ss } }

/-- The guard `now - lastFrame < 1000 / cfg.maxFps`; `1000 / 0` is `Infinity` in JavaScript,
which every finite difference is below. -/
def throttled (s : Instance) (now : ℚ) : Bool :=
  if s.cfg.maxFps = 0 then true else decide (now - s.lastFrame < 1000 / s.cfg.maxFps)

/-- A call of `step` at time `now` gets past its two early returns. -/
def executes (s : Instance) (now : ℚ) : Bool :=
  !s.disposed && s.isInViewport && !throttled s now

/-- Lines 240-258 of `step`: the work of a frame that is not skipped. -/
def stepFrame (s0 : Instance) : Instance :=
  let s := updateTargets s0
  let d1 := |s.primary.target - s.primary.eased|
  let d2 := |s.secondary.target - s.secondary.eased|
  if s.state.isHover = false ∧ d1 < 2 / 5 ∧ d2 < 2 / 5 then
    applyDashes
      { s with
        primary := { s.primary with eased := s.primary.target }
        secondary := { s.secondary with eased := s.secondary.target } }
  else if s.prefersReducedMotion then
    applyDashes
      { s with
        primary := { s.primary with eased := s.primary.target }
        secondary := { s.secondary with eased := s.secondary.target } }
  else
    applyDashes
      { s with
        primary :=
          { s.primary with
            eased := s.primary.eased + (s.primary.target - s.primary.eased) * s.cfg.ease }
        secondary :=
          { s.secondary with
            eased := s.secondary.eased + (s.secondary.target - s.secondary.eased) * s.cfg.ease } }

/-- The function `step()`; `now` is the value of `performance.now()`. -/
def step (s : Instance) (now : ℚ) : Instance :=
  if s.disposed || !s.isInViewport then s
  else if throttled s now then s
  else stepFrame { s with lastFrame := now }

/-! ## The shared animation pool (lines 30-47) -/

/-- The private state of `RafPool` together with the part of the browser it talks to.
`callbacks` is the entry list of the `Set` in insertion order, a deleted entry being left
empty (this is how `Set.prototype.forEach` sees deletions and additions made while it
runs); `frameRequests` are the handles `requestAnimationFrame` gave out that have neither
run nor been cancelled, every one of them for `tick`. -/
structure RafPool where
  rafId : Option Nat := none
  callbacks : List (Option Nat) := []
  frameRequests : List Nat := []
  nextHandle : Nat := 1
  deriving DecidableEq

namespace RafPool

/-- Truthiness of `rafId`: `null` and `0` are falsy. -/
def truthy : Option Nat → Bool
  | some (_ + 1) => true
  | _ => false

/-- The property `callbacks.size`. -/
def size (p : RafPool) : Nat := (p.callbacks.filter Option.isSome).length

/-- The test `callbacks.has(cb)`. -/
def has (p : RafPool) (cb : Nat) : Bool := p.callbacks.contains (some cb)

/-- The call `requestAnimationFrame(tick)`: a fresh handle, greater than zero. -/
def requestAnimationFrame (p : RafPool) : Nat × RafPool :=
  (p.nextHandle,
    { p with frameRequests := p.frameRequests ++ [p.nextHandle], nextHandle := p.nextHandle + 1 })

/-- The call `cancelAnimationFrame(id)`. -/
def cancelAnimationFrame (id : Nat) (p : RafPool) : RafPool :=
  { p with frameRequests := p.frameRequests.filter (fun h => h != id) }

/-- The method `RafPool.add(cb)`; the handle it returns is `unregister cb`. -/
def add (cb : Nat) (p : RafPool) : RafPool :=
  let p1 : RafPool :=
    if p.has cb then p else { p with callbacks := p.callbacks ++ [some cb] }
  if p1.size = 1 ∧ truthy p1.rafId = false then
    let r := p1.requestAnimationFrame
    { r.2 with rafId := some r.1 }
  else p1

/-- The closure `() => { callbacks.delete(cb); if (!callbacks.size && rafId) ... }`. -/
def unregister (cb : Nat) (p : RafPool) : RafPool :=
  let p1 : RafPool :=
    { p with callbacks := p.callbacks.map (fun e => if e = some cb then none else e) }
  if p1.size = 0 ∧ truthy p1.rafId = true then
    match p1.rafId with
    | some id => { cancelAnimationFrame id p1 with rafId := none }
    | none => p1
  else p1

end RafPool

/-- What a registered callback may do to the pool while it runs. -/
inductive PoolOp where
  | add (cb : Nat)
  | unregister (cb : Nat)
  deriving DecidableEq

/-- The effect of one call of a callback on the pool: the pool operations it performs, and
whether it ends by throwing. -/
structure CallbackRun where
  ops : List PoolOp := []
  throws : Bool := false
  deriving DecidableEq

namespace RafPool

/-- One pool operation performed from inside a callback. -/
def perform (p : RafPool) : PoolOp → RafPool
  | .add cb => p.add cb
  | .unregister cb => p.unregister cb

/-- The call `cb()`: the pool afterwards, and whether an exception escaped the callback. -/
def call (run : CallbackRun) (p : RafPool) : RafPool × Bool :=
  (run.ops.foldl perform p, run.throws)

/-- The statement `try { cb(); } catch (e) {}`: the exception, if any, is dropped. -/
def tryCall (run : CallbackRun) (p : RafPool) : RafPool := (call run p).1

/-- The loop `callbacks.forEach(cb => ...)` from entry `i` on.  Entries appended while the
loop runs are visited too, so the loop need not finish: `none` means that `fuel` visits did
not reach the last entry. -/
def forEachFrom (beh : Nat → CallbackRun) : Nat → Nat → RafPool → Option RafPool
  | 0, i, p => if i < p.callbacks.length then none else some p
  | fuel + 1, i, p =>
    match p.callbacks.get? i with
    | none => some p
    | some none => forEachFrom beh fuel (i + 1) p
    | some (some cb) => forEachFrom beh fuel (i + 1) (tryCall (beh cb) p)

end RafPool

/-- The module-level state.  Instance `i` of `instances` is the one created by the `i`-th
call of `init` that got past its guards; its `step` is callback `i` of the pool and its
`cleanup` closure is disposer `i`.  The two weak maps and the weak set are association
lists keyed by element. -/
structure System where
  pool : RafPool := {}
  instances : List Instance := []
  cleanupMap : List (Nat × Nat) := []
  instanceMap : List (Nat × Nat) := []
  initInProgress : List Nat := []
  deriving DecidableEq

/-- The argument `hostEl` of `init`, with what its `querySelector` call finds. -/
structure HostEl where
  el : Nat
  strokeChild : Option Nat := none
  deriving DecidableEq

/-- The closure `cleanup` of instance `i` (lines 385-393). -/
def cleanup (i : Nat) (sys : System) : System :=
  match sys.instances.get? i with
  | none => sys
  | some inst =>
    { sys with
      pool :=
        match inst.unregister with
        | some cb => sys.pool.unregister cb
        | none => sys.pool
      instances :=
        sys.instances.set i
          { inst with
            disposed := true
            ioObserving := false
            roObserving := false
            visListener := false
            injectedInDom := false }
      cleanupMap := sys.cleanupMap.filter (fun e => e.1 != inst.strokeHost) }

/-- The function `init(hostEl, options)`; the second component is the disposer returned: `none` is the
no-op `() => {}`, `some i` the closure `cleanup` of instance `i`. -/
def init (hostEl : Option HostEl) (options : Options) (env : HostEnv) (sys : System) :
    System × Option Nat :=
  match hostEl with
  | none => (sys, none)
  | some h =>
    let strokeHost := h.strokeChild.getD h.el
    if sys.initInProgress.contains strokeHost then (sys, none)
    else
      let sys1 : System := { sys with initInProgress := strokeHost :: sys.initInProgress }
      let sys2 : System :=
        match sys1.cleanupMap.lookup strokeHost with
        | some prev => cleanup prev sys1
        | none => sys1
      let cfg := mkConfig env options
      let id := sys2.instances.length
      let inst : Instance :=
        { hostEl := h.el
          strokeHost := strokeHost
          cfg := cfg
          prefersReducedMotion := env.reducedMotion
          roObserving := true
          ioObserving := cfg.pauseOffscreen && env.hasIntersectionObserver
          visListener := true
          injectedInDom := true }
      let inst1 := recalc env inst
      ({ sys2 with
          pool := sys2.pool.add id
          instances := sys2.instances ++ [{ inst1 with unregister := some id }]
          initInProgress := sys2.initInProgress.filter (fun e => e != strokeHost)
          cleanupMap := (strokeHost, id) :: sys2.cleanupMap.filter (fun e => e.1 != strokeHost)
          instanceMap := (h.el, id) :: sys2.instanceMap.filter (fun e => e.1 != h.el) },
        some id)

/-- The `IntersectionObserver` callback of instance `i` (lines 364-368), delivered while the
observer is connected. -/
def onIntersect (i : Nat) (isIntersecting : Bool) (sys : System) : System :=
  match sys.instances.get? i with
  | none => sys
  | some inst =>
    if !inst.ioObserving then sys
    else if isIntersecting ∧ inst.unregister = none then
      { sys with
        pool := sys.pool.add i
        instances := sys.instances.set i { inst with isInViewport := true, unregister := some i } }
    else
      match isIntersecting, inst.unregister with
      | false, some cb =>
        { sys with
          pool := sys.pool.unregister cb
          instances := sys.instances.set i { inst with isInViewport := false, unregister := none } }
      | _, _ =>
        { sys with instances := sys.instances.set i { inst with isInViewport := isIntersecting } }

/-- The `visibilitychange` listener `onVis` of instance `i` (lines 373-376), delivered while
the listener is attached; `hidden` is `document.hidden`. -/
def onVis (i : Nat) (hidden : Bool) (sys : System) : System :=
  match sys.instances.get? i with
  | none => sys
  | some inst =>
    if !inst.visListener then sys
    else
      match hidden, inst.unregister with
      | true, some cb =>
        { sys with
          pool := sys.pool.unregister cb
          instances := sys.instances.set i { inst with unregister := none } }
      | false, none =>
        if inst.isInViewport then
          { sys with
            pool := sys.pool.add i
            instances := sys.instances.set i { inst with unregister := some i } }
        else sys
      | _, _ => sys

/-- A call of `init` on the host, or a call of the `k`-th disposer returned so far. -/
inductive HostEvent where
  | init
  | dispose (k : Nat)
  deriving DecidableEq

/-- A sequence of `init` calls on one host and of calls of the disposers they returned;
the state carries the list of disposers returned so far. -/
def runHost (hostEl : HostEl) (options : Options) (env : HostEnv) :
    System × List (Option Nat) → List HostEvent → System × List (Option Nat)
  | st, [] => st
  | (sys, ds), .init :: evs =>
    let r := init (some hostEl) options env sys
    runHost hostEl options env (r.1, ds ++ [r.2]) evs
  | (sys, ds), .dispose k :: evs =>
    match ds.get? k with
    | some (some i) => runHost hostEl options env (cleanup i sys, ds) evs
    | _ => runHost hostEl options env (sys, ds) evs

/-- The instances on stroke container `strokeHost` that have not been disposed. -/
def liveOn (sys : System) (strokeHost : Nat) : List Instance :=
  sys.instances.filter fun inst => inst.strokeHost == strokeHost && !inst.disposed

/-! ## Notions used in the statements -/

/-- The targets `updateTargets` leaves behind when the instance is not hovering. -/
def restTarget (s : Instance) : ℚ × ℚ :=
  if s.metrics.perimeter = 0 then (s.primary.target, s.secondary.target)
  else (s.metrics.bases.ps, s.metrics.bases.ss)

/-- Off hover, both eased values sit on their targets, which are the rest targets. -/
def Settled (s : Instance) : Prop :=
  s.state.isHover = false ∧ s.primary.eased = s.primary.target ∧
    s.secondary.eased = s.secondary.target ∧
    restTarget s = (s.primary.target, s.secondary.target)

/-- The radius as C9 words it: `min(c + m, maxRadius if set, min(iw, ih) / 2)`. -/
def claimedRadius (c m : ℚ) (maxRadius : Option ℚ) (iw ih : ℚ) : ℚ :=
  min
    (match maxRadius with
     | some mr => min (c + m) mr
     | none => c + m)
    (min iw ih / 2)

/-! ## Concrete inputs -/

/-- An instance fresh from the constructor part of `init`, before `recalc`. -/
def freshInstance (env : HostEnv) (options : Options) : Instance :=
  { hostEl := 0, strokeHost := 0, cfg := mkConfig env options }

/-- A host element without a stroke container of its own. -/
def demoHost : HostEl := { el := 7 }

/-- A host of size 200 x 50 with no custom property set. -/
def demoEnv : HostEnv := { width := 200, height := 50 }

/-- The system after one `init` on `demoHost`. -/
def demoSystem : System := (init (some demoHost) {} demoEnv {}).1

/-- Options that select the squircle radius and cap the radius at 100. -/
def squircleOptions : Options := { useAppleRadius := some true, maxRadius := some (some 100) }

/-- A rested instance whose cursors are away from their rest targets. -/
def easingInstance : Instance :=
  { hostEl := 0
    strokeHost := 0
    cfg := mkConfig { width := 200, height := 50 } {}
    metrics := { perimeter := 500, segment := 50, head := 40, widthSpan := 100,
                 bases := { ps := 40, pe := -90, ss := -210, se := -340, wrap := 160 } }
    primary := { target := 40, eased := 30 }
    secondary := { target := -210, eased := -200 } }

/-- An instance off hover whose cursors are within 0.4 of their rest targets. -/
def nearRestInstance : Instance :=
  { easingInstance with
    primary := { target := 40, eased := 201 / 5 }
    secondary := { target := -210, eased := -1051 / 5 } }

/-- The resolution of a configuration key as C11 words it: the caller's option when the key
is given; otherwise the parsed number whenever parsing yields one; the default only when
parsing fails. -/
def ClaimedResolution (value : ℚ) (option parsed : Option ℚ) (dflt : ℚ) : Prop :=
  (∀ v, option = some v → value = v) ∧
    (option = none → ∀ v, parsed = some v → value = v) ∧
    (option = none → parsed = none → value = dflt)

/-- The resolution of a configuration key as the code performs it: the caller's option when
the key is given; otherwise the parsed number when parsing yields a number other than 0;
otherwise, when parsing fails or yields 0, the default. -/
def Resolution (value : ℚ) (option parsed : Option ℚ) (dflt : ℚ) : Prop :=
  (∀ v, option = some v → value = v) ∧
    (option = none → ∀ v, parsed = some v → v ≠ 0 → value = v) ∧
    (option = none → parsed = none → value = dflt) ∧
    (option = none → parsed = some 0 → value = dflt)


/-- What one run of `tick` does, seen from outside: the pool it leaves, the callbacks it
invoked, in order, and whether an exception left it. -/
structure TickOutcome where
  pool : RafPool
  invoked : List Nat
  escaped : Bool
  deriving DecidableEq

/-- The arrow function `cb => { try { cb(); } catch (e) {} }` that `tick` hands to
`forEach`: the pool after the call of `cb`, and whether an exception leaves the arrow
function, which the empty `catch` clause never allows. -/
def RafPool.guarded (run : CallbackRun) (p : RafPool) : RafPool × Bool := (tryCall run p, false)

/-- The loop of `Set.prototype.forEach` from entry `i` on, for any visiting function, with
the trace of the callbacks visited: an exception that leaves the visiting function ends
the loop and leaves `forEach`. -/
def RafPool.forEachLog (visit : Nat → RafPool → RafPool × Bool) :
    Nat → Nat → TickOutcome → Option TickOutcome
  | 0, i, o => if i < o.pool.callbacks.length then none else some o
  | fuel + 1, i, o =>
    match o.pool.callbacks.get? i with
    | none => some o
    | some none => forEachLog visit fuel (i + 1) o
    | some (some cb) =>
      if (visit cb o.pool).2 then
        some { pool := (visit cb o.pool).1, invoked := o.invoked ++ [cb], escaped := true }
      else
        forEachLog visit fuel (i + 1)
          { o with pool := (visit cb o.pool).1, invoked := o.invoked ++ [cb] }

/-- The function `tick` with its trace, for any visiting function: the next frame is
requested only when no exception has left the loop. -/
def RafPool.tickWith (visit : Nat → RafPool → RafPool × Bool) (fuel : Nat) (p : RafPool) :
    Option TickOutcome :=
  (forEachLog visit fuel 0 { pool := p, invoked := [], escaped := false }).map fun o =>
    if o.escaped then o
    else
      { o with
        pool := { o.pool.requestAnimationFrame.2 with rafId := some o.pool.requestAnimationFrame.1 } }

/-- Three callbacks that leave the pool alone; the first and the third throw. -/
def throwingCallbacks : Nat → CallbackRun := fun cb => { throws := cb != 1 }

/-- A pool with the callbacks 0, 1 and 2 registered and a frame requested. -/
def threePool : RafPool := ((RafPool.add 2 (RafPool.add 1 (RafPool.add 0 {}))))


/-- The function `recalc()` of `src/dist/siderun.js`: as in `src/js/siderun.js` up to the
bases, after which both cursors are put on their rest bases on every call. -/
def recalcDist (env : HostEnv) (s : Instance) : Instance :=
  if s.disposed then s
  else
    let box := recalcBox s.cfg env
    let r := recalcRadius s.cfg env box.w box.h box.iw box.ih
    let arcQ := Math.PI * r * (1 / 2)
    let perim := recalcPerimeter box.iw box.ih r
    let segment := arcQ + s.cfg.tail * 2
    let head := arcQ + s.cfg.tail
    let widthSpan := max 0 (box.iw - r * 2)
    let b : Bases :=
      { ps := head
        pe := -widthSpan - arcQ + head
        ss := head - perim * (1 / 2)
        se := -perim * (1 / 2) - widthSpan - arcQ + head
        wrap := -perim * (1 / 2) - widthSpan - arcQ + head + perim }
    applyDashes
      { s with
        svgSize := some (box.w, box.h)
        geometry := some (setGeometry env box.w box.h r)
        metrics :=
          { perimeter := perim, segment := segment, head := head, widthSpan := widthSpan,
            bases := b }
        primary := ⟨b.ps, b.ps⟩
        secondary := ⟨b.ss, b.ss⟩ }

/-- What happens to one engine apart from touch: a call of `recalc` (at start-up or after
a resize), a change of the hover state (the `isHover` flag and the pointer ratio), and a
call of `step` at a frame time. -/
inductive EngineEvent where
  | recalc (env : HostEnv)
  | hover (isHover : Bool) (hoverX : ℚ)
  | step (now : ℚ)
  deriving DecidableEq

/-- A sequence of engine events on the copy of the engine whose `recalc` is `rc`. -/
def runEngine (rc : HostEnv → Instance → Instance) : Instance → List EngineEvent → Instance
  | s, [] => s
  | s, .recalc env :: evs => runEngine rc (rc env s) evs
  | s, .hover isHover hoverX :: evs =>
    runEngine rc { s with state := { s.state with isHover := isHover, hoverX := hoverX } } evs
  | s, .step now :: evs => runEngine rc (step s now) evs

/-- A start-up, a pointer entering at ratio 0.5, one frame, and a resize. -/
def resizeUnderHover : List EngineEvent :=
  [.recalc demoEnv, .hover true (1 / 2), .step 1000, .recalc demoEnv]


/-- Line 226 of `applyDashes`: the length of the leading tail. -/
def tailLen (s : Instance) : ℚ :=
  max 0 (-s.secondary.eased + s.primary.eased - s.cfg.gap * 2 - s.metrics.segment)

/-- Line 229 of `applyDashes`: the length of the trailing tail. -/
def trailLen (s : Instance) : ℚ :=
  max 0 (s.metrics.perimeter + s.secondary.eased - s.primary.eased - s.cfg.gap * 2 -
    s.metrics.segment)

@[simp]
theorem applyDashes_primary (s : Instance) : (applyDashes s).primary = s.primary := by
  unfold applyDashes; split_ifs <;> rfl

@[simp]
theorem applyDashes_secondary (s : Instance) : (applyDashes s).secondary = s.secondary := by
  unfold applyDashes; split_ifs <;> rfl

@[simp]
theorem applyDashes_metrics (s : Instance) : (applyDashes s).metrics = s.metrics := by
  unfold applyDashes; split_ifs <;> rfl

@[simp]
theorem applyDashes_state (s : Instance) : (applyDashes s).state = s.state := by
  unfold applyDashes; split_ifs <;> rfl

@[simp]
theorem applyDashes_cfg (s : Instance) : (applyDashes s).cfg = s.cfg := by
  unfold applyDashes; split_ifs <;> rfl

@[simp]
theorem applyDashes_disposed (s : Instance) : (applyDashes s).disposed = s.disposed := by
  unfold applyDashes; split_ifs <;> rfl

@[simp]
theorem applyDashes_isInViewport (s : Instance) :
    (applyDashes s).isInViewport = s.isInViewport := by
  unfold applyDashes; split_ifs <;> rfl

@[simp]
theorem applyDashes_prefersReducedMotion (s : Instance) :
    (applyDashes s).prefersReducedMotion = s.prefersReducedMotion := by
  unfold applyDashes; split_ifs <;> rfl

@[simp]
theorem applyDashes_lastFrame (s : Instance) : (applyDashes s).lastFrame = s.lastFrame := by
  unfold applyDashes; split_ifs <;> rfl

@[simp]
theorem applyDashes_geometry (s : Instance) : (applyDashes s).geometry = s.geometry := by
  unfold applyDashes; split_ifs <;> rfl

@[simp]
theorem applyDashes_svgSize (s : Instance) : (applyDashes s).svgSize = s.svgSize := by
  unfold applyDashes; split_ifs <;> rfl

/-- What `recalc` writes to the SVG nodes and stores as the perimeter. -/
theorem recalc_geometry (env : HostEnv) (s : Instance) (hd : s.disposed = false) :
    (recalc env s).svgSize = some ((recalcBox s.cfg env).w, (recalcBox s.cfg env).h) ∧
    (recalc env s).geometry =
      some (setGeometry env (recalcBox s.cfg env).w (recalcBox s.cfg env).h
        (recalcRadius s.cfg env (recalcBox s.cfg env).w (recalcBox s.cfg env).h
          (recalcBox s.cfg env).iw (recalcBox s.cfg env).ih)) ∧
    (recalc env s).metrics.perimeter =
      recalcPerimeter (recalcBox s.cfg env).iw (recalcBox s.cfg env).ih
        (recalcRadius s.cfg env (recalcBox s.cfg env).w (recalcBox s.cfg env).h
          (recalcBox s.cfg env).iw (recalcBox s.cfg env).ih) := by
  unfold recalc
  simp only [hd, Bool.false_eq_true, if_false]
  split_ifs <;> simp

@[simp]
theorem updateTargets_primary_eased (s : Instance) :
    (updateTargets s).primary.eased = s.primary.eased := by
  unfold updateTargets; split_ifs <;> rfl

@[simp]
theorem updateTargets_secondary_eased (s : Instance) :
    (updateTargets s).secondary.eased = s.secondary.eased := by
  unfold updateTargets; split_ifs <;> rfl

@[simp]
theorem updateTargets_metrics (s : Instance) : (updateTargets s).metrics = s.metrics := by
  unfold updateTargets; split_ifs <;> rfl

@[simp]
theorem updateTargets_state (s : Instance) : (updateTargets s).state = s.state := by
  unfold updateTargets; split_ifs <;> rfl

@[simp]
theorem updateTargets_cfg (s : Instance) : (updateTargets s).cfg = s.cfg := by
  unfold updateTargets; split_ifs <;> rfl

@[simp]
theorem updateTargets_disposed (s : Instance) :
    (updateTargets s).disposed = s.disposed := by
  unfold updateTargets; split_ifs <;> rfl

@[simp]
theorem updateTargets_isInViewport (s : Instance) :
    (updateTargets s).isInViewport = s.isInViewport := by
  unfold updateTargets; split_ifs <;> rfl

@[simp]
theorem updateTargets_prefersReducedMotion (s : Instance) :
    (updateTargets s).prefersReducedMotion = s.prefersReducedMotion := by
  unfold updateTargets; split_ifs <;> rfl

@[simp]
theorem updateTargets_lastFrame (s : Instance) :
    (updateTargets s).lastFrame = s.lastFrame := by
  unfold updateTargets; split_ifs <;> rfl

/-- The frame time plays no part in the targets. -/
theorem updateTargets_lastFrame_primary (s : Instance) (now : ℚ) :
    (updateTargets { s with lastFrame := now }).primary = (updateTargets s).primary := by
  unfold updateTargets; split_ifs <;> rfl

theorem updateTargets_lastFrame_secondary (s : Instance) (now : ℚ) :
    (updateTargets { s with lastFrame := now }).secondary = (updateTargets s).secondary := by
  unfold updateTargets; split_ifs <;> rfl

/-- A call of `step` that does not execute changes nothing. -/
theorem step_of_not_executes (s : Instance) (now : ℚ) (h : executes s now = false) :
    step s now = s := by
  unfold step
  unfold executes at h
  by_cases hd : s.disposed = true
  · simp [hd]
  · by_cases hv : s.isInViewport = true
    · by_cases ht : throttled s now = true
      · simp [ht]
      · simp [hd, hv, ht] at h
    · simp [hv]

/-- The cursor pair after the work of a frame, in terms of the targets of `updateTargets`. -/
theorem stepFrame_cursors (t : Instance) :
    (stepFrame t).primary.target = (updateTargets t).primary.target ∧
    (stepFrame t).secondary.target = (updateTargets t).secondary.target ∧
    (stepFrame t).primary.eased =
      (if (t.state.isHover = false ∧
            |(updateTargets t).primary.target - t.primary.eased| < 2 / 5 ∧
            |(updateTargets t).secondary.target - t.secondary.eased| < 2 / 5) ∨
          t.prefersReducedMotion = true then (updateTargets t).primary.target
        else t.primary.eased + ((updateTargets t).primary.target - t.primary.eased) * t.cfg.ease) ∧
    (stepFrame t).secondary.eased =
      (if (t.state.isHover = false ∧
            |(updateTargets t).primary.target - t.primary.eased| < 2 / 5 ∧
            |(updateTargets t).secondary.target - t.secondary.eased| < 2 / 5) ∨
          t.prefersReducedMotion = true then (updateTargets t).secondary.target
        else
          t.secondary.eased + ((updateTargets t).secondary.target - t.secondary.eased) * t.cfg.ease) := by
  have e1 := updateTargets_primary_eased t
  have e2 := updateTargets_secondary_eased t
  have e3 := updateTargets_state t
  have e4 := updateTargets_prefersReducedMotion t
  have e5 := updateTargets_cfg t
  unfold stepFrame
  generalize updateTargets t = u at *
  rw [← e1, ← e2, ← e3, ← e4, ← e5]
  by_cases hc : u.state.isHover = false ∧ |u.primary.target - u.primary.eased| < 2 / 5 ∧
      |u.secondary.target - u.secondary.eased| < 2 / 5
  · simp [hc]
  · by_cases hr : u.prefersReducedMotion = true
    · simp [hc, hr]
    · simp [hc, hr]

/-- An executed `step` is the work of a frame at the new frame time. -/
theorem step_of_executes (s : Instance) (now : ℚ) (h : executes s now = true) :
    step s now = stepFrame { s with lastFrame := now } := by
  unfold executes at h
  simp only [Bool.and_eq_true, Bool.not_eq_true', Bool.not_eq_eq_eq_not, Bool.not_true] at h
  obtain ⟨⟨hd, hv⟩, ht⟩ := h
  unfold step
  simp [hd, hv, ht]

/-- The cursor pair after an executed `step`, in terms of the targets of `updateTargets`. -/
theorem step_cursors (s : Instance) (now : ℚ) (h : executes s now = true) :
    (step s now).primary.target = (updateTargets s).primary.target ∧
    (step s now).secondary.target = (updateTargets s).secondary.target ∧
    (step s now).primary.eased =
      (if (s.state.isHover = false ∧
            |(updateTargets s).primary.target - s.primary.eased| < 2 / 5 ∧
            |(updateTargets s).secondary.target - s.secondary.eased| < 2 / 5) ∨
          s.prefersReducedMotion = true then (updateTargets s).primary.target
        else s.primary.eased + ((updateTargets s).primary.target - s.primary.eased) * s.cfg.ease) ∧
    (step s now).secondary.eased =
      (if (s.state.isHover = false ∧
            |(updateTargets s).primary.target - s.primary.eased| < 2 / 5 ∧
            |(updateTargets s).secondary.target - s.secondary.eased| < 2 / 5) ∨
          s.prefersReducedMotion = true then (updateTargets s).secondary.target
        else
          s.secondary.eased + ((updateTargets s).secondary.target - s.secondary.eased) * s.cfg.ease) := by
  rw [step_of_executes s now h]
  have h := stepFrame_cursors { s with lastFrame := now }
  rw [updateTargets_lastFrame_primary, updateTargets_lastFrame_secondary] at h
  exact h

@[simp]
theorem stepFrame_metrics (t : Instance) : (stepFrame t).metrics = t.metrics := by
  unfold stepFrame; simp only; split_ifs <;> simp

@[simp]
theorem stepFrame_state (t : Instance) : (stepFrame t).state = t.state := by
  unfold stepFrame; simp only; split_ifs <;> simp

@[simp]
theorem stepFrame_cfg (t : Instance) : (stepFrame t).cfg = t.cfg := by
  unfold stepFrame; simp only; split_ifs <;> simp

@[simp]
theorem stepFrame_prefersReducedMotion (t : Instance) :
    (stepFrame t).prefersReducedMotion = t.prefersReducedMotion := by
  unfold stepFrame; simp only; split_ifs <;> simp

/-- A call of `step` touches neither the metrics, the hover state, the configuration nor the
reduced-motion flag. -/
theorem step_frame_data (s : Instance) (now : ℚ) :
    (step s now).metrics = s.metrics ∧ (step s now).state = s.state ∧
    (step s now).cfg = s.cfg ∧ (step s now).prefersReducedMotion = s.prefersReducedMotion := by
  cases h : executes s now
  · rw [step_of_not_executes s now h]; simp
  · rw [step_of_executes s now h]; simp

/-- Off hover, `updateTargets` sets the rest targets. -/
theorem updateTargets_rest (s : Instance) (hh : s.state.isHover = false) :
    (updateTargets s).primary.target = (restTarget s).1 ∧
    (updateTargets s).secondary.target = (restTarget s).2 := by
  unfold updateTargets restTarget
  split_ifs <;> simp_all

/-- When the inner width and height have a non-negative sum, the value `recalc` stores as the
perimeter is non-negative, whatever the radius. -/
theorem recalcPerimeter_nonneg (iw ih r : ℚ) (h : 0 ≤ iw + ih) :
    0 ≤ recalcPerimeter iw ih r := by
  unfold recalcPerimeter
  simp only
  split_ifs with hp
  · linarith
  · linarith

/-! ## Settling at the rest position -/

/-- Off hover, `step` keeps the rest targets. -/
theorem restTarget_step (s : Instance) (now : ℚ) (hh : s.state.isHover = false) :
    restTarget (step s now) = restTarget s := by
  cases hex : executes s now
  · rw [step_of_not_executes s now hex]
  · obtain ⟨t1, t2, -, -⟩ := step_cursors s now hex
    obtain ⟨q1, q2⟩ := updateTargets_rest s hh
    obtain ⟨hm, -, -, -⟩ := step_frame_data s now
    unfold restTarget
    rw [hm]
    split_ifs with hp
    · rw [t1, t2, q1, q2]; unfold restTarget; rw [if_pos hp]
    · rfl

/-- Off hover, an executed `step` leaves the targets at the rest targets. -/
theorem step_target_rest (s : Instance) (now : ℚ) (hex : executes s now = true)
    (hh : s.state.isHover = false) :
    (step s now).primary.target = (restTarget s).1 ∧
    (step s now).secondary.target = (restTarget s).2 := by
  obtain ⟨t1, t2, -, -⟩ := step_cursors s now hex
  obtain ⟨q1, q2⟩ := updateTargets_rest s hh
  exact ⟨by rw [t1, q1], by rw [t2, q2]⟩

/-- The snap rule: off hover and within 0.4 of both rest targets, an executed `step` settles
the cursors. -/
theorem settled_of_near (s : Instance) (now : ℚ) (hex : executes s now = true)
    (hh : s.state.isHover = false)
    (hd1 : |(updateTargets s).primary.target - s.primary.eased| < 2 / 5)
    (hd2 : |(updateTargets s).secondary.target - s.secondary.eased| < 2 / 5) :
    Settled (step s now) := by
  obtain ⟨t1, t2, e1, e2⟩ := step_cursors s now hex
  have hc : (s.state.isHover = false ∧
      |(updateTargets s).primary.target - s.primary.eased| < 2 / 5 ∧
      |(updateTargets s).secondary.target - s.secondary.eased| < 2 / 5) ∨
      s.prefersReducedMotion = true := Or.inl ⟨hh, hd1, hd2⟩
  rw [if_pos hc] at e1 e2
  obtain ⟨r1, r2⟩ := step_target_rest s now hex hh
  obtain ⟨-, hs, -, -⟩ := step_frame_data s now
  refine ⟨by rw [hs]; exact hh, by rw [e1, t1], by rw [e2, t2], ?_⟩
  rw [restTarget_step s now hh, r1, r2]

/-- A settled instance stays settled under `step`, with both cursors unchanged. -/
theorem settled_step (s : Instance) (now : ℚ) (h : Settled s) :
    (step s now).primary = s.primary ∧ (step s now).secondary = s.secondary ∧
      Settled (step s now) := by
  obtain ⟨hh, p1, p2, hr⟩ := h
  cases hex : executes s now
  · rw [step_of_not_executes s now hex]; exact ⟨rfl, rfl, hh, p1, p2, hr⟩
  · obtain ⟨q1, q2⟩ := updateTargets_rest s hh
    rw [hr] at q1 q2
    simp only at q1 q2
    have hd1 : |(updateTargets s).primary.target - s.primary.eased| < 2 / 5 := by
      rw [q1, p1]; norm_num
    have hd2 : |(updateTargets s).secondary.target - s.secondary.eased| < 2 / 5 := by
      rw [q2, p2]; norm_num
    have hset := settled_of_near s now hex hh hd1 hd2
    obtain ⟨t1, t2, -, -⟩ := step_cursors s now hex
    have s1 := hset.2.1
    have s2 := hset.2.2.1
    refine ⟨?_, ?_, hset⟩
    · apply Cursor.ext
      · rw [t1, q1]
      · rw [s1, t1, q1, p1]
    · apply Cursor.ext
      · rw [t2, q2]
      · rw [s2, t2, q2, p2]

namespace RafPool

theorem size_append_some (p : RafPool) (cb : Nat) :
    size { p with callbacks := p.callbacks ++ [some cb] } = p.size + 1 := by
  simp [size, List.filter_append]

theorem add_callbacks (p : RafPool) (cb : Nat) :
    (p.add cb).callbacks = if p.has cb = true then p.callbacks else p.callbacks ++ [some cb] := by
  unfold add requestAnimationFrame
  by_cases hh : p.has cb = true
  · simp only [hh, if_true]
    split_ifs <;> rfl
  · simp only [hh, Bool.false_eq_true, if_false]
    split_ifs <;> rfl

theorem unregister_callbacks (p : RafPool) (cb : Nat) :
    (p.unregister cb).callbacks = p.callbacks.map (fun e => if e = some cb then none else e) := by
  unfold unregister cancelAnimationFrame
  simp only
  split_ifs
  · cases p.rafId <;> rfl
  · rfl

end RafPool

namespace RafPool

theorem delete_delete (l : List (Option Nat)) (cb : Nat) :
    (l.map (fun e => if e = some cb then none else e)).map
        (fun e => if e = some cb then none else e) =
      l.map (fun e => if e = some cb then none else e) := by
  rw [List.map_map]
  apply List.map_congr_left
  intro e _
  by_cases he : e = some cb <;> simp [he]

/-- After its unregister handle has run, a callback is not in the set. -/
theorem has_unregister (p : RafPool) (cb : Nat) : (p.unregister cb).has cb = false := by
  unfold has
  rw [unregister_callbacks]
  simp only [List.contains_eq_any_beq, List.any_map, List.any_eq_false, Function.comp_apply,
    beq_iff_eq]
  intro e _
  by_cases he : e = some cb
  · simp [he]
  · simp only [he, if_false]
    exact fun h => he h.symm

/-- Calling an unregister handle a second time changes nothing. -/
theorem unregister_idem (p : RafPool) (cb : Nat) :
    (p.unregister cb).unregister cb = p.unregister cb := by
  rcases p with ⟨r, cbs, fr, nh⟩
  have dd := delete_delete cbs cb
  unfold unregister
  simp only [size]
  by_cases hs : (List.filter Option.isSome
      (List.map (fun e => if e = some cb then none else e) cbs)).length = 0
  · cases r with
    | none => simp only [truthy, Bool.false_eq_true, and_false, if_false, dd]
    | some n =>
      cases n with
      | zero => simp only [truthy, Bool.false_eq_true, and_false, if_false, dd]
      | succ m =>
        simp only [truthy, hs, and_self, if_true, cancelAnimationFrame, dd, Bool.false_eq_true,
          and_false, if_false]
  · simp only [hs, false_and, if_false, dd]

end RafPool

/-- The state `cleanup i` leaves, when instance `i` exists. -/
theorem cleanup_eq (sys : System) (i : Nat) (inst : Instance)
    (hi : sys.instances.get? i = some inst) :
    cleanup i sys =
      { sys with
        pool :=
          match inst.unregister with
          | some cb => sys.pool.unregister cb
          | none => sys.pool
        instances :=
          sys.instances.set i
            { inst with
              disposed := true
              ioObserving := false
              roObserving := false
              visListener := false
              injectedInDom := false }
        cleanupMap := sys.cleanupMap.filter (fun e => e.1 != inst.strokeHost) } := by
  unfold cleanup
  rw [hi]

/-! ## The claims -/

/-- C1, the code at the failing input: for a host of size 0 x 0 initialised with
`margin: 0` and the default stroke width 3, `recalc` stores the perimeter `-12`,
which is negative. -/
theorem recalc_perimeter_negative :
    (recalc { width := 0, height := 0 }
      (freshInstance { width := 0, height := 0 } { margin := some 0 })).metrics.perimeter = -12 := by
  norm_num [recalc, recalcBox, freshInstance, mkConfig, recalcRadius, recalcPerimeter, orDefault, cssVal,
    applyDashes, Math.PI]

/-- C3: off hover, when both cursors are within 0.4 of the targets `updateTargets` computes,
an executed `step` leaves each eased value equal to its target, and a further call of
`step` (at any frame time, executed or skipped) leaves both cursors as they are. -/
theorem step_snap_idempotent (s : Instance) (now : ℚ)
    (hex : executes s now = true) (hh : s.state.isHover = false)
    (hd1 : |(updateTargets s).primary.target - s.primary.eased| < 2 / 5)
    (hd2 : |(updateTargets s).secondary.target - s.secondary.eased| < 2 / 5) :
    (step s now).primary.eased = (step s now).primary.target ∧
    (step s now).secondary.eased = (step s now).secondary.target ∧
    ∀ now2 : ℚ,
      (step (step s now) now2).primary = (step s now).primary ∧
      (step (step s now) now2).secondary = (step s now).secondary := by
  have hset := settled_of_near s now hex hh hd1 hd2
  refine ⟨hset.2.1, hset.2.2.1, fun now2 => ?_⟩
  obtain ⟨c1, c2, -⟩ := settled_step (step s now) now2 hset
  exact ⟨c1, c2⟩

/-- Witness of C3 on `nearRestInstance`, first frame at time 1000. -/
theorem step_snap_idempotent_witness :
    (executes nearRestInstance 1000 = true ∧ nearRestInstance.state.isHover = false ∧
      |(updateTargets nearRestInstance).primary.target - nearRestInstance.primary.eased| < 2 / 5 ∧
      |(updateTargets nearRestInstance).secondary.target - nearRestInstance.secondary.eased| <
        2 / 5) ∧
    (step nearRestInstance 1000).primary.eased = (step nearRestInstance 1000).primary.target ∧
    (step nearRestInstance 1000).secondary.eased = (step nearRestInstance 1000).secondary.target ∧
    ∀ now2 : ℚ,
      (step (step nearRestInstance 1000) now2).primary = (step nearRestInstance 1000).primary ∧
      (step (step nearRestInstance 1000) now2).secondary =
        (step nearRestInstance 1000).secondary :=
  have hex : executes nearRestInstance 1000 = true := by
    norm_num [executes, throttled, nearRestInstance, easingInstance, mkConfig, cssVal, orDefault]
  have hd1 :
      |(updateTargets nearRestInstance).primary.target - nearRestInstance.primary.eased| < 2 / 5 := by
    norm_num [updateTargets, nearRestInstance, easingInstance, abs_lt]
  have hd2 :
      |(updateTargets nearRestInstance).secondary.target - nearRestInstance.secondary.eased| <
        2 / 5 := by
    norm_num [updateTargets, nearRestInstance, easingInstance, abs_lt]
  ⟨⟨hex, rfl, hd1, hd2⟩, step_snap_idempotent nearRestInstance 1000 hex rfl hd1 hd2⟩

/-- C6: for an instance that is registered (its `unregister` handle is set) or paused (no
handle, and its `step` not in the pool), the disposer leaves `step` absent from the
callback set and the instance disposed; a second call straight after leaves the whole
state, pool and instance included, as the first call left it.  `cleanup` is a total
function: no call of it can raise. -/
theorem cleanup_idempotent (sys : System) (i : Nat) (inst : Instance)
    (hi : sys.instances.get? i = some inst)
    (hreg : inst.unregister = some i ∨ (inst.unregister = none ∧ sys.pool.has i = false)) :
    (cleanup i sys).pool.has i = false ∧
    ((cleanup i sys).instances.get? i).map (fun x => x.disposed) = some true ∧
    cleanup i (cleanup i sys) = cleanup i sys := by
  have hlt : i < sys.instances.length := by
    rw [List.get?_eq_some] at hi
    exact hi.1
  have h1 := cleanup_eq sys i inst hi
  have hget : (cleanup i sys).instances.get? i =
      some { inst with
              disposed := true
              ioObserving := false
              roObserving := false
              visListener := false
              injectedInDom := false } := by
    rw [h1]
    simp [hlt]
  refine ⟨?_, ?_, ?_⟩
  · rw [h1]
    rcases hreg with hr | ⟨hr, hn⟩
    · simp only [hr]
      exact RafPool.has_unregister _ _
    · simp only [hr]
      exact hn
  · rw [hget]; rfl
  · rw [cleanup_eq (cleanup i sys) i _ hget, h1]
    simp only [List.set_set, List.filter_filter, Bool.and_self]
    cases hu : inst.unregister with
    | none => rfl
    | some cb => simp only [RafPool.unregister_idem]

/-- Witness of C6 on the instance that one `init` creates. -/
theorem cleanup_idempotent_witness :
    (cleanup 0 demoSystem).pool.has 0 = false ∧
    ((cleanup 0 demoSystem).instances.get? 0).map (fun x => x.disposed) = some true ∧
    cleanup 0 (cleanup 0 demoSystem) = cleanup 0 demoSystem :=
  cleanup_idempotent demoSystem 0
    { recalc demoEnv
        { hostEl := 7, strokeHost := 7, cfg := mkConfig demoEnv {}, roObserving := true,
          ioObserving := true, visListener := true, injectedInDom := true } with
      unregister := some 0 }
    rfl (Or.inl rfl)

/-- C7, the code at the failing input: `d1 = init(host); d2 = init(host); d1(); init(host)`
leaves two instances that are not disposed on the one stroke container (the second and the
third), both with their `step` in the pool. -/
theorem stale_disposer_leaves_two_live :
    ((runHost demoHost {} demoEnv ({}, [])
        [.init, .init, .dispose 0, .init]).1.instances.map fun x => (x.strokeHost, x.disposed)) =
      [(7, true), (7, false), (7, false)] ∧
    (liveOn (runHost demoHost {} demoEnv ({}, [])
        [.init, .init, .dispose 0, .init]).1 7).length = 2 ∧
    (runHost demoHost {} demoEnv ({}, [])
        [.init, .init, .dispose 0, .init]).1.pool.callbacks = [none, some 1, some 2] := by
  decide!

/-- C8: whatever the host size, margin, stroke width, radius policy and `maxRadius`, the
radius `r` that a `recalc` (of an instance not yet disposed) writes as `rx` and uses for the
perimeter is at most `min(iw, ih) / 2`, with `iw = w - stroke` and `ih = h - stroke`. -/
theorem recalc_radius_le_half_inner (env : HostEnv) (s : Instance) (hd : s.disposed = false) :
    ∃ r : ℚ,
      (recalc env s).geometry.map (fun g => g.rx) = some r ∧
      (recalc env s).metrics.perimeter =
        recalcPerimeter (recalcBox s.cfg env).iw (recalcBox s.cfg env).ih r ∧
      (recalcBox s.cfg env).iw = (recalcBox s.cfg env).w - orDefault env.srStrokeWidth 3 ∧
      (recalcBox s.cfg env).ih = (recalcBox s.cfg env).h - orDefault env.srStrokeWidth 3 ∧
      r ≤ min (recalcBox s.cfg env).iw (recalcBox s.cfg env).ih / 2 := by
  obtain ⟨-, hg, hp⟩ := recalc_geometry env s hd
  refine ⟨_, ?_, hp, rfl, rfl, ?_⟩
  · rw [hg]; rfl
  · unfold recalcRadius
    exact min_le_right _ _

/-- Witness of C8 on a host of size 200 x 50 with the squircle radius and a radius cap. -/
theorem recalc_radius_le_half_inner_witness :
    ∃ r : ℚ,
      (recalc demoEnv (freshInstance demoEnv squircleOptions)).geometry.map (fun g => g.rx) = some r ∧
      r ≤ min (222 - 3) (72 - 3) / 2 := by
  obtain ⟨r, h1, -, -, -, h2⟩ := recalc_radius_le_half_inner demoEnv
    (freshInstance demoEnv squircleOptions) rfl
  refine ⟨r, h1, ?_⟩
  have hb : recalcBox (freshInstance demoEnv squircleOptions).cfg demoEnv =
      ⟨222, 72, 222 - 3, 72 - 3⟩ := by
    norm_num [recalcBox, freshInstance, mkConfig, cssVal, orDefault, demoEnv, squircleOptions]
  rw [hb] at h2
  exact h2

/-- C9 as stated fails at `c = 0`: for a host of size 200 x 50 with margin 11, stroke 3 and
a parsed border radius of 0, `recalc` uses the radius 23 (the fallback 12 plus the margin),
not `min(0 + 11, min(219, 69) / 2) = 11`. -/
theorem recalc_radius_zero_css_radius :
    (recalc { width := 200, height := 50, borderRadius := some 0 }
        (freshInstance { width := 200, height := 50, borderRadius := some 0 } {})).geometry.map
      (fun g => g.rx) = some 23 ∧
    claimedRadius 0 11 none (222 - 3) (72 - 3) = 11 ∧
    (recalc { width := 200, height := 50, borderRadius := some 0 }
        (freshInstance { width := 200, height := 50, borderRadius := some 0 } {})).geometry.map
      (fun g => g.rx) ≠ some (claimedRadius 0 11 none (222 - 3) (72 - 3)) := by
  have h1 : (recalc { width := 200, height := 50, borderRadius := some 0 }
      (freshInstance { width := 200, height := 50, borderRadius := some 0 } {})).geometry.map
        (fun g => g.rx) = some 23 := by
    rw [(recalc_geometry _ _ rfl).2.1]
    norm_num [setGeometry, recalcBox, recalcRadius, freshInstance, mkConfig, cssVal, orDefault]
  have h2 : claimedRadius 0 11 none (222 - 3) (72 - 3) = 11 := by norm_num [claimedRadius]
  refine ⟨h1, h2, ?_⟩
  rw [h1, h2]
  norm_num

/-- C9 amended: on the default radius path, for a host of width and height at least 0, any
margin `m` and a parsed CSS border radius `c > 0`, `recalc` uses `w = max(0, width + 2m)` and
`h = max(0, height + 2m)`, which are `width + 2m` and `height + 2m` when `m` is at least 0,
and the radius `min(c + m, maxRadius if set and not 0, min(iw, ih) / 2)`. -/
theorem recalc_default_radius (env : HostEnv) (s : Instance) (c : ℚ)
    (hd : s.disposed = false) (hua : s.cfg.useAppleRadius = false)
    (hc : env.borderRadius = some c) (hc0 : 0 < c)
    (hw : 0 ≤ env.width) (hh : 0 ≤ env.height) :
    (recalc env s).svgSize =
      some (max 0 (env.width + 2 * s.cfg.margin), max 0 (env.height + 2 * s.cfg.margin)) ∧
    (0 ≤ s.cfg.margin →
      (recalc env s).svgSize =
        some (env.width + 2 * s.cfg.margin, env.height + 2 * s.cfg.margin)) ∧
    (recalc env s).geometry.map (fun g => g.rx) =
      some (claimedRadius c s.cfg.margin (s.cfg.maxRadius.filter fun mr => mr != 0)
        (max 0 (env.width + 2 * s.cfg.margin) - orDefault env.srStrokeWidth 3)
        (max 0 (env.height + 2 * s.cfg.margin) - orDefault env.srStrokeWidth 3)) := by
  obtain ⟨hs, hg, -⟩ := recalc_geometry env s hd
  have hbw : (recalcBox s.cfg env).w = max 0 (env.width + 2 * s.cfg.margin) := by
    simp only [recalcBox, mul_comm]
  have hbh : (recalcBox s.cfg env).h = max 0 (env.height + 2 * s.cfg.margin) := by
    simp only [recalcBox, mul_comm]
  have hbiw : (recalcBox s.cfg env).iw =
      max 0 (env.width + 2 * s.cfg.margin) - orDefault env.srStrokeWidth 3 := by
    simp only [recalcBox, mul_comm]
  have hbih : (recalcBox s.cfg env).ih =
      max 0 (env.height + 2 * s.cfg.margin) - orDefault env.srStrokeWidth 3 := by
    simp only [recalcBox, mul_comm]
  refine ⟨by rw [hs, hbw, hbh], fun hm => ?_, ?_⟩
  · rw [hs, hbw, hbh, max_eq_right (by nlinarith), max_eq_right (by nlinarith)]
  · rw [hg, hbw, hbh, hbiw, hbih]
    simp only [Option.map_some', setGeometry, recalcRadius, claimedRadius, hua, hc, orDefault,
      hc0.ne', Bool.false_eq_true, if_false]
    cases hmr : s.cfg.maxRadius with
    | none => simp
    | some mr =>
      by_cases h0 : mr = 0
      · simp [h0, Option.filter]
      · simp [h0, Option.filter]

/-- Witness of C9 amended: host 200 x 50, margin 11, CSS radius 12, stroke 3 and no
`maxRadius` give `w = 222`, `h = 72` and `r = 23`. -/
theorem recalc_default_radius_witness :
    (recalc { width := 200, height := 50, borderRadius := some 12 }
        (freshInstance { width := 200, height := 50, borderRadius := some 12 } {})).svgSize =
      some (222, 72) ∧
    (recalc { width := 200, height := 50, borderRadius := some 12 }
        (freshInstance { width := 200, height := 50, borderRadius := some 12 } {})).geometry.map
      (fun g => g.rx) = some 23 := by
  obtain ⟨h1, -, h3⟩ := recalc_default_radius
    { width := 200, height := 50, borderRadius := some 12 }
    (freshInstance { width := 200, height := 50, borderRadius := some 12 } {}) 12
    rfl rfl rfl (by norm_num) (by norm_num) (by norm_num)
  constructor
  · rw [h1]
    norm_num [freshInstance, mkConfig, cssVal, orDefault]
  · rw [h3]
    norm_num [claimedRadius, freshInstance, mkConfig, cssVal, orDefault, Option.filter]

/-- The options win over the style, and the style value is `cssVal`. -/
theorem resolution_getD (option parsed : Option ℚ) (dflt : ℚ) :
    Resolution (option.getD (cssVal parsed dflt)) option parsed dflt := by
  refine ⟨fun v h => ?_, fun h v hp hv => ?_, fun h hp => ?_, fun h hp => ?_⟩
  · rw [h]; rfl
  · rw [h, hp]; simp [cssVal, orDefault, hv]
  · rw [h, hp]; rfl
  · rw [h, hp]; simp [cssVal, orDefault]

/-- C11 as stated fails at a parsed 0: with `--sr-gap: 0` on the host and no `gap` option,
`cfg.gap` is the default 10, not the parsed number 0. -/
theorem mkConfig_gap_zero_css :
    (mkConfig { width := 200, height := 50, srGap := some 0 } {}).gap = 10 ∧
    ¬ ClaimedResolution (mkConfig { width := 200, height := 50, srGap := some 0 } {}).gap
        none (some 0) 10 := by
  have h : (mkConfig { width := 200, height := 50, srGap := some 0 } {}).gap = 10 := by
    norm_num [mkConfig, cssVal, orDefault]
  refine ⟨h, fun hc => ?_⟩
  have h0 := hc.2.1 rfl 0 rfl
  rw [h] at h0
  norm_num at h0

/-- C11 amended: for each of the keys `tail`, `gap`, `ease`, `margin` and `maxFps`, the
resolved value is the caller's option when the key is given; otherwise the number parsed
from the matching custom property when parsing yields a number other than 0; and the
default (10, 10, 0.1, 11, 60) when parsing fails, a parsed 0 being replaced by the default
as well. -/
theorem mkConfig_resolution (env : HostEnv) (o : Options) :
    Resolution (mkConfig env o).tail o.tail env.srTail 10 ∧
    Resolution (mkConfig env o).gap o.gap env.srGap 10 ∧
    Resolution (mkConfig env o).ease o.ease env.srEase (1 / 10) ∧
    Resolution (mkConfig env o).margin o.margin env.srMargin 11 ∧
    Resolution (mkConfig env o).maxFps o.maxFps env.srMaxFps 60 :=
  ⟨resolution_getD _ _ _, resolution_getD _ _ _, resolution_getD _ _ _, resolution_getD _ _ _,
    resolution_getD _ _ _⟩

/-! ## The trace of a tick -/

namespace RafPool

/-- The trace does not change what `forEach` does to the pool when no exception leaves the
visiting function. -/
theorem forEachLog_guarded_pool (beh : Nat → CallbackRun) (fuel : Nat) :
    ∀ (i : Nat) (o : TickOutcome),
      (forEachLog (fun cb => guarded (beh cb)) fuel i o).map (fun r => r.pool) =
        forEachFrom beh fuel i o.pool := by
  induction fuel with
  | zero =>
    intro i o
    simp only [forEachLog, forEachFrom]
    split_ifs <;> rfl
  | succ f ih =>
    intro i o
    simp only [forEachLog, forEachFrom]
    cases hg : o.pool.callbacks.get? i with
    | none => rfl
    | some e =>
      cases e with
      | none => exact ih (i + 1) o
      | some cb =>
        simp only [guarded, Bool.false_eq_true, if_false]
        exact ih (i + 1) _

end RafPool

namespace RafPool

/-- A callback is in the set exactly when it is among the live entries. -/
theorem has_iff_mem (p : RafPool) (cb : Nat) :
    p.has cb = true ↔ cb ∈ p.callbacks.reduceOption := by
  unfold has
  rw [List.reduceOption_mem_iff]
  simp

/-- Registration keeps the live entries distinct. -/
theorem nodup_add (p : RafPool) (cb : Nat) (h : p.callbacks.reduceOption.Nodup) :
    (p.add cb).callbacks.reduceOption.Nodup := by
  rw [add_callbacks]
  split_ifs with hh
  · exact h
  · rw [List.reduceOption_append]
    have hn : cb ∉ p.callbacks.reduceOption := fun hm => hh ((has_iff_mem p cb).mpr hm)
    simp only [List.reduceOption_cons_of_some, List.reduceOption_nil]
    exact List.Nodup.append h (List.nodup_singleton cb) (by simpa using hn)

/-- Removal keeps the live entries distinct. -/
theorem nodup_unregister (p : RafPool) (cb : Nat) (h : p.callbacks.reduceOption.Nodup) :
    (p.unregister cb).callbacks.reduceOption.Nodup := by
  rw [unregister_callbacks]
  have hsub : ∀ l : List (Option Nat),
      ((l.map (fun e => if e = some cb then none else e)).reduceOption).Sublist l.reduceOption := by
    intro l
    induction l with
    | nil => simp
    | cons a l ih =>
      cases a with
      | none => simpa [List.reduceOption_cons_of_none] using ih
      | some c =>
        by_cases hc : c = cb
        · simp only [List.map_cons, hc, if_true, List.reduceOption_cons_of_none,
            List.reduceOption_cons_of_some]
          exact List.Sublist.cons _ ih
        · have hne : ¬ (some c = some cb) := fun h => hc (Option.some.inj h)
          simp only [List.map_cons, hne, if_false, List.reduceOption_cons_of_some]
          exact List.Sublist.cons₂ _ ih
  exact List.Nodup.sublist (hsub _) h

end RafPool

/-- Without the `try`, a throwing callback would end the loop: the callbacks after it are
not invoked and no frame is requested. -/
theorem unguarded_tick_stops_at_throw :
    RafPool.tickWith (fun cb => RafPool.call (throwingCallbacks cb)) 3 threePool =
      some { pool := threePool, invoked := [0], escaped := true } := by
  decide

/-- In `src/js/siderun.js`, a `recalc` that finds a target other than 0 leaves both eased
values as they were. -/
theorem recalc_keeps_eased (env : HostEnv) (s : Instance)
    (h : ¬ (s.primary.target = 0 ∧ s.secondary.target = 0)) :
    (recalc env s).primary.eased = s.primary.eased ∧
    (recalc env s).secondary.eased = s.secondary.eased := by
  unfold recalc
  by_cases hd : s.disposed = true
  · simp [hd]
  · simp only [hd, Bool.false_eq_true, if_false, h]
    split_ifs <;> simp

/-- In `src/dist/siderun.js`, every `recalc` of an instance not disposed puts both cursors,
target and eased value, on the rest bases. -/
theorem recalcDist_resets (env : HostEnv) (s : Instance) (hd : s.disposed = false) :
    (recalcDist env s).primary.eased = (recalcDist env s).metrics.bases.ps ∧
    (recalcDist env s).secondary.eased = (recalcDist env s).metrics.bases.ss ∧
    (recalcDist env s).primary.target = (recalcDist env s).metrics.bases.ps ∧
    (recalcDist env s).secondary.target = (recalcDist env s).metrics.bases.ss := by
  unfold recalcDist
  simp [hd]

/-- On the first call, when both targets are still 0, the two copies of `recalc` agree. -/
theorem recalcDist_eq_recalc_of_initial (env : HostEnv) (s : Instance)
    (h : s.primary.target = 0 ∧ s.secondary.target = 0) :
    recalcDist env s = recalc env s := by
  unfold recalcDist recalc
  by_cases hd : s.disposed = true
  · simp [hd]
  · simp only [hd, Bool.false_eq_true, if_false, h, and_self, if_true]

/-- Events other than `recalc` do not depend on the copy. -/
theorem runEngine_of_no_recalc (evs : List EngineEvent)
    (h : ∀ env, EngineEvent.recalc env ∉ evs) :
    ∀ s : Instance, runEngine recalcDist s evs = runEngine recalc s evs := by
  induction evs with
  | nil => intro s; rfl
  | cons ev evs ih =>
    intro s
    have h2 : ∀ env, EngineEvent.recalc env ∉ evs := fun env hm =>
      h env (List.mem_cons_of_mem _ hm)
    cases ev with
    | recalc env => exact absurd (List.mem_cons_self _ _) (h env)
    | hover a b => simp only [runEngine]; exact ih h2 _
    | step now => simp only [runEngine]; exact ih h2 _

/-- The two copies agree on every run that calls `recalc` once, at start-up. -/
theorem runEngine_agree_single_recalc (env : HostEnv) (evs : List EngineEvent)
    (h : ∀ env2, EngineEvent.recalc env2 ∉ evs) (s : Instance)
    (h0 : s.primary.target = 0 ∧ s.secondary.target = 0) :
    runEngine recalcDist s (.recalc env :: evs) = runEngine recalc s (.recalc env :: evs) := by
  simp only [runEngine]
  rw [recalcDist_eq_recalc_of_initial env s h0]
  exact runEngine_of_no_recalc evs h _

/-- C13, the code at the failing input: after a start-up, a pointer entering at ratio 0.5,
one executed frame and a resize, the copy under `src/js` has kept the eased value the frame
produced and aims at the hover target, while the copy under `src/dist` has put target and
eased value of the primary cursor back on the rest base `ps`; the two copies differ in both,
and in the dash offset of the second runner. -/
theorem copies_differ_after_resize_under_hover :
    (runEngine recalc (freshInstance demoEnv {}) resizeUnderHover).metrics =
      (runEngine recalcDist (freshInstance demoEnv {}) resizeUnderHover).metrics ∧
    (runEngine recalcDist (freshInstance demoEnv {}) resizeUnderHover).primary.eased =
      (runEngine recalcDist (freshInstance demoEnv {}) resizeUnderHover).metrics.bases.ps ∧
    (runEngine recalc (freshInstance demoEnv {}) resizeUnderHover).primary.eased ≠
      (runEngine recalcDist (freshInstance demoEnv {}) resizeUnderHover).primary.eased ∧
    (runEngine recalc (freshInstance demoEnv {}) resizeUnderHover).primary.target ≠
      (runEngine recalcDist (freshInstance demoEnv {}) resizeUnderHover).primary.target ∧
    (runEngine recalc (freshInstance demoEnv {}) resizeUnderHover).dashes.map
        (fun d => d.runner2.offset) ≠
      (runEngine recalcDist (freshInstance demoEnv {}) resizeUnderHover).dashes.map
        (fun d => d.runner2.offset) := by
  decide!

/-! ## The four dashes -/

end SideRun
